import Mathlib

/-!
Shallow embedding of the concurrency core of the AI_Assistant repository:
the speech queue (app/core/text_to_speech.py), the continuous capture loop
(app/core/voice_input.py), the voice agent controller
(app/controllers/voice_agent_controller.py), the backend API client
(app/core/api_client.py) and the chat controller message validation
(app/controllers/chat_controller.py).  Each stateful Python object becomes
a state structure with one Lean function per method; the speech worker
thread becomes explicit worker actions interleaved with the method calls,
and each Python source line is treated as atomic.
-/

/-- Python whitespace test used by str.strip: space, tab, newline, carriage
return, vertical tab and form feed (the ASCII whitespace characters). -/
def pySpace (c : Char) : Bool :=
  c == ' ' || c == '\t' || c == '\n' || c == '\r' || c == Char.ofNat 11 || c == Char.ofNat 12

/-- Python str.strip: drop leading and trailing whitespace. -/
def pyStrip (s : String) : String :=
  String.mk (((s.data.dropWhile pySpace).reverse.dropWhile pySpace).reverse)

/-- State of the TextToSpeech object (app/core/text_to_speech.py).
The `queue` field is the FIFO speech_queue, `workerCount` the number of
live worker threads, `current` the utterance the worker is rendering.
`rendered` and `enqueued` are ghost logs of completed renders and of
accepted enqueues, used to state the FIFO ordering property. -/
structure TTSState where
  engineOk : Bool
  enabled : Bool
  speaking : Bool
  queue : List String
  workerCount : Nat
  current : Option String
  rendered : List String
  enqueued : List String
deriving Repr, DecidableEq

/-- State after TextToSpeech.__init__ : enabled, not speaking, empty queue,
no worker thread.  `engineOk` records whether pyttsx3.init succeeded. -/
def ttsInit (engineOk : Bool) : TTSState :=
  { engineOk := engineOk, enabled := true, speaking := false, queue := [],
    workerCount := 0, current := none, rendered := [], enqueued := [] }

/-- TextToSpeech.speak: return unless enabled, engine present and text
non-empty; strip the text and return if blank; otherwise put the stripped
text on the queue and start a worker thread if none is alive. -/
def tts_speak (s : TTSState) (text : String) : TTSState :=
  if s.enabled = false ∨ s.engineOk = false ∨ text = "" then s
  else if pyStrip text = "" then s
  else
    let s1 := { s with queue := s.queue ++ [pyStrip text],
                       enqueued := s.enqueued ++ [pyStrip text] }
    if s1.workerCount = 0 then { s1 with workerCount := s1.workerCount + 1 } else s1

/-- Worker step from TextToSpeech._speech_worker / _speak_sync: a live and
idle worker takes the head of the queue; _speak_sync returns at once when
the engine is absent, otherwise it sets `speaking` and starts rendering
the item. -/
def tts_worker_take (s : TTSState) : TTSState :=
  match s.queue with
  | [] => s
  | t :: rest =>
      if s.workerCount = 0 ∨ s.current.isSome = true then s
      else if s.engineOk then { s with queue := rest, current := some t, speaking := true }
      else { s with queue := rest }

/-- Worker step: _speak_sync finishes rendering the current utterance and
clears `speaking` (the tail of _speak_sync). -/
def tts_worker_done (s : TTSState) : TTSState :=
  match s.current with
  | none => s
  | some t => { s with current := none, speaking := false, rendered := s.rendered ++ [t] }

/-- Worker step: the _speech_worker loop observes an empty queue between
items and exits. -/
def tts_worker_exit (s : TTSState) : TTSState :=
  if s.workerCount = 0 then s
  else if s.queue = [] ∧ s.current = none then { s with workerCount := s.workerCount - 1 }
  else s

/-- TextToSpeech.stop: when an engine exists, cancel the current utterance
(engine.stop), clear `speaking` and drain the queue; without an engine it
does nothing. -/
def tts_stop (s : TTSState) : TTSState :=
  if s.engineOk then { s with speaking := false, current := none, queue := [] }
  else s

/-- TextToSpeech.set_enabled: record the flag and call stop() when
disabling. -/
def tts_set_enabled (s : TTSState) (b : Bool) : TTSState :=
  let s1 := { s with enabled := b }
  if b then s1 else tts_stop s1

/-- TextToSpeech.is_speaking. -/
def tts_is_speaking (s : TTSState) : Bool := s.speaking

/-- One atomic event on the TextToSpeech object: a speak call, one of the
three worker-thread steps, a stop call, or a set_enabled call. -/
inductive TTSAction where
  | speak (text : String)
  | workerTake
  | workerDone
  | workerExit
  | stop
  | setEnabled (b : Bool)
deriving Repr, DecidableEq

/-- Interleaving semantics: apply one atomic event. -/
def ttsStep (s : TTSState) : TTSAction → TTSState
  | TTSAction.speak t => tts_speak s t
  | TTSAction.workerTake => tts_worker_take s
  | TTSAction.workerDone => tts_worker_done s
  | TTSAction.workerExit => tts_worker_exit s
  | TTSAction.stop => tts_stop s
  | TTSAction.setEnabled b => tts_set_enabled s b

/-- Run a sequence of events from the freshly constructed object. -/
def runTTS (engineOk : Bool) (acts : List TTSAction) : TTSState :=
  acts.foldl ttsStep (ttsInit engineOk)

/-- Events that discard queued speech: stop() and set_enabled(False). -/
def noDiscard : TTSAction → Bool
  | TTSAction.stop => false
  | TTSAction.setEnabled b => b
  | _ => true

/-- What one capture cycle of VoiceInputHandler._continuous_listen returns:
recognised text, the session flag cleared during the blocking listen
(the break after recognizer.listen), sr.UnknownValueError (no speech),
sr.RequestError (recognition service failure), or another in-cycle
exception. -/
inductive ListenOutcome where
  | heard (text : String)
  | deactivated
  | noSpeech
  | serviceError (msg : String)
  | cycleError
deriving Repr, DecidableEq

/-- Observable events of the capture loop: the listening_started signal,
the blocking recognizer.listen call, the transcription_ready signal and
the error_occurred signal. -/
inductive CaptureEvent where
  | listeningStarted
  | listenCall
  | transcript (text : String)
  | errorEvent (msg : String)
deriving Repr, DecidableEq

/-- Event trace of VoiceInputHandler._continuous_listen for a sequence of
cycle outcomes.  Every iteration first emits listening_started, then
blocks in recognizer.listen; recognised text is emitted through
transcription_ready when non-blank; UnknownValueError and generic
exceptions continue silently; RequestError emits error_occurred and
continues; a cleared session flag breaks out of the loop. -/
def continuousListen : List ListenOutcome → List CaptureEvent
  | [] => []
  | ListenOutcome.deactivated :: _ =>
      [CaptureEvent.listeningStarted, CaptureEvent.listenCall]
  | ListenOutcome.heard t :: rest =>
      CaptureEvent.listeningStarted :: CaptureEvent.listenCall ::
        ((if t = "" ∨ pyStrip t = "" then [] else [CaptureEvent.transcript t]) ++
          continuousListen rest)
  | ListenOutcome.noSpeech :: rest =>
      CaptureEvent.listeningStarted :: CaptureEvent.listenCall :: continuousListen rest
  | ListenOutcome.serviceError m :: rest =>
      CaptureEvent.listeningStarted :: CaptureEvent.listenCall ::
        CaptureEvent.errorEvent ("Speech recognition service error: " ++ m) ::
          continuousListen rest
  | ListenOutcome.cycleError :: rest =>
      CaptureEvent.listeningStarted :: CaptureEvent.listenCall :: continuousListen rest

/-- Scan checking that every listenCall in a trace is preceded by a
listeningStarted emitted after the previous listenCall, i.e. in its own
cycle.  The flag records whether a listeningStarted has been seen since
the last listenCall. -/
def listenGuarded : Bool → List CaptureEvent → Bool
  | _, [] => true
  | _, CaptureEvent.listeningStarted :: es => listenGuarded true es
  | seen, CaptureEvent.listenCall :: es => seen && listenGuarded false es
  | seen, _ :: es => listenGuarded seen es

/-- VoiceAgentController._on_listening_started: if the TTS is speaking,
stop it (the barge-in rule). -/
def on_listening_started (s : TTSState) : TTSState :=
  if tts_is_speaking s then tts_stop s else s

/-- The coordinator reaction to one capture event, restricted to its
effect on the TTS state: listening_started runs the barge-in handler,
other capture events leave the TTS state alone. -/
def controllerStep (s : TTSState) (ev : CaptureEvent) : TTSState :=
  match ev with
  | CaptureEvent.listeningStarted => on_listening_started s
  | _ => s

/-- Check, along a capture trace processed by the coordinator, that every
transcript event arrives while the TTS is not speaking. -/
def transcriptsQuiet : TTSState → List CaptureEvent → Bool
  | _, [] => true
  | s, ev :: es =>
      (match ev with
       | CaptureEvent.transcript _ => !(tts_is_speaking s)
       | _ => true) && transcriptsQuiet (controllerStep s ev) es

/-- Dispatch state of VoiceAgentController: worker ids are allocated in
creation order; `running` holds the live APIWorker threads with their
messages, `connectedIds` the workers whose response_received signal is
connected to _handle_api_response, `currentWorker` the current_worker
reference, `delivered` the responses delivered to _handle_api_response. -/
structure DispatchState where
  nextId : Nat
  running : List (Nat × String)
  connectedIds : List Nat
  currentWorker : Option Nat
  delivered : List (Nat × String)
deriving Repr, DecidableEq

/-- Controller before any dispatch: current_worker is None. -/
def dispatchInit : DispatchState :=
  { nextId := 0, running := [], connectedIds := [], currentWorker := none, delivered := [] }

/-- VoiceAgentController._send_to_api: unconditionally create a new
APIWorker, connect its signals, store it in current_worker and start it.
The previous worker is neither checked, cancelled nor disconnected. -/
def send_to_api (s : DispatchState) (message : String) : DispatchState :=
  { s with nextId := s.nextId + 1,
           running := s.running ++ [(s.nextId, message)],
           connectedIds := s.connectedIds ++ [s.nextId],
           currentWorker := some s.nextId }

/-- A running APIWorker completes: its response_received signal fires, so
the reply is delivered to _handle_api_response whenever the connection is
still in place, then its finished signal runs _cleanup_worker, which
clears the current_worker reference. -/
def worker_finished (s : DispatchState) (id : Nat) (reply : String) : DispatchState :=
  if id ∈ s.running.map Prod.fst then
    let s1 := { s with running := s.running.filter (fun p => p.fst != id) }
    let s2 := if id ∈ s1.connectedIds
              then { s1 with delivered := s1.delivered ++ [(id, reply)] }
              else s1
    { s2 with currentWorker := none }
  else s

/-- APIStatus enum of app/core/api_client.py. -/
inductive APIStatus where
  | success
  | error
  | timeout
  | connection_error
  | invalid_response
  | authentication_error
deriving Repr, DecidableEq

/-- APIResponse wrapper of app/core/api_client.py.  The JSON payload is
modelled as an association list of string fields. -/
structure APIResponse where
  status : APIStatus
  data : List (String × String)
  error : Option String
  status_code : Option Nat
deriving Repr, DecidableEq

/-- How one HTTP attempt inside APIClient._make_request can end: an HTTP
response arrives (with status code and a body that parses as JSON or
not), requests.exceptions.Timeout, requests.exceptions.ConnectionError,
another RequestException, or an unexpected exception. -/
inductive RequestOutcome where
  | httpResponse (statusCode : Nat) (validJson : Bool) (body : List (String × String))
  | timedOut
  | connectionFailed
  | requestFailed (msg : String)
  | unexpected (msg : String)
deriving Repr, DecidableEq

/-- APIClient._make_request: raise_for_status turns a 4xx or 5xx response
into an HTTPError, classified as authentication_error for 401 and 403 and
as error otherwise; a non-raising response is parsed as JSON, yielding
success or invalid_response; Timeout, ConnectionError and the remaining
exceptions map to timeout, connection_error and error.  Every branch
returns an APIResponse, never raising to the caller. -/
def make_request (o : RequestOutcome) : APIResponse :=
  match o with
  | RequestOutcome.httpResponse code validJson body =>
      if 400 ≤ code ∧ code < 600 then
        if code = 401 ∨ code = 403 then
          { status := APIStatus.authentication_error, data := [],
            error := some "Authentication failed. Please check your API key.",
            status_code := some code }
        else
          { status := APIStatus.error, data := [],
            error := some "HTTP error", status_code := some code }
      else if validJson then
        { status := APIStatus.success, data := body, error := none,
          status_code := some code }
      else
        { status := APIStatus.invalid_response, data := [],
          error := some "Server returned invalid JSON response",
          status_code := some code }
  | RequestOutcome.timedOut =>
      { status := APIStatus.timeout, data := [],
        error := some "Request timed out", status_code := none }
  | RequestOutcome.connectionFailed =>
      { status := APIStatus.connection_error, data := [],
        error := some "Cannot connect to server. Please check your connection.",
        status_code := none }
  | RequestOutcome.requestFailed m =>
      { status := APIStatus.error, data := [],
        error := some ("Request failed: " ++ m), status_code := none }
  | RequestOutcome.unexpected m =>
      { status := APIStatus.error, data := [],
        error := some ("Unexpected error: " ++ m), status_code := none }

/-- Python substring test (the in operator on str). -/
def containsSub (s pat : String) : Bool :=
  decide (1 < (s.splitOn pat).length)

/-- Reply extraction in VoiceAgentController._handle_api_response:
response.data.get("response", response.data.get("reply", "No response")). -/
def extract_ai_reply (data : List (String × String)) : String :=
  match data.lookup "response" with
  | some v => v
  | none =>
      match data.lookup "reply" with
      | some v => v
      | none => "No response"

/-- Error text chosen by VoiceAgentController._handle_error_response. -/
def handle_error_message (resp : APIResponse) : String :=
  if resp.status = APIStatus.timeout then "Request timed out"
  else if resp.status = APIStatus.connection_error then "Cannot connect to server"
  else if resp.status = APIStatus.authentication_error then "Authentication failed"
  else
    let m := match resp.error with
             | some e => if e = "" then "Unknown error" else e
             | none => "Unknown error"
    if containsSub m "429" || containsSub (m.toLower) "quota" then
      "⚠️ OpenAI Quota Exceeded\n\nYour API key has run out of credits or exceeded the quota.\n\nFix this:\n1. Go to platform.openai.com/account/billing\n2. Add payment method or check usage\n3. Ensure billing is enabled for your API key"
    else if containsSub m "401" || containsSub (m.toLower) "invalid" then
      "⚠️ Invalid API Key\n\nYour OpenAI API key is invalid or expired.\n\nFix this:\n1. Go to platform.openai.com/api-keys\n2. Generate a new API key\n3. Update Server/.env file"
    else m

/-- Observable state of the voice agent coordinator around one API
response: the agent side of the chat log, the error popups, the agent
connectivity flag and the TTS state. -/
structure VAState where
  agentMessages : List String
  errorsShown : List String
  agentConnected : Bool
  tts : TTSState
deriving Repr, DecidableEq

/-- VoiceAgentController._handle_api_response: on success extract the
reply, append it to the chat log, speak it and mark the agent connected;
otherwise show the classified error and mark the agent disconnected. -/
def handle_api_response (s : VAState) (resp : APIResponse) : VAState :=
  if resp.status = APIStatus.success then
    { s with agentMessages := s.agentMessages ++ [extract_ai_reply resp.data],
             tts := tts_speak s.tts (extract_ai_reply resp.data),
             agentConnected := true }
  else
    { s with errorsShown := s.errorsShown ++ [handle_error_message resp],
             agentConnected := false }

/-- Config.MAX_MESSAGE_LENGTH (app/core/config.py). -/
def MAX_MESSAGE_LENGTH : Nat := 5000

/-- Observable state of ChatController around message submission: the
user side of the chat log, the error popups, the input-enabled flag and
the messages handed to an APIWorker. -/
structure ChatUI where
  userMessages : List String
  errorsShown : List String
  inputEnabled : Bool
  dispatched : List String
deriving Repr, DecidableEq

/-- ChatController.handle_message_sent: return silently on empty or
blank messages; show an error and return on messages longer than
Config.MAX_MESSAGE_LENGTH; otherwise add the user message, disable input
and start an APIWorker for it. -/
def handle_message_sent (ui : ChatUI) (message : String) : ChatUI :=
  if message = "" ∨ pyStrip message = "" then ui
  else if MAX_MESSAGE_LENGTH < message.length then
    { ui with errorsShown := ui.errorsShown ++
        ["Message too long. Maximum " ++ toString MAX_MESSAGE_LENGTH ++ " characters."] }
  else
    { ui with userMessages := ui.userMessages ++ [message],
              inputEnabled := false,
              dispatched := ui.dispatched ++ [message] }

/-- A message of 5001 blanks. -/
def longSpaces : String := String.mk (List.replicate 5001 ' ')

/-- An empty chat window. -/
def chatInit0 : ChatUI :=
  { userMessages := [], errorsShown := [], inputEnabled := true, dispatched := [] }

/-- A non-blank message of 5001 characters. -/
def longLetters : String := String.mk (List.replicate 5001 'a')

/-- A sample event sequence on the speech queue: two speak calls, a
worker drain of the first item, then the worker taking the second. -/
def c1acts : List TTSAction :=
  [TTSAction.speak "  hello ", TTSAction.speak "there", TTSAction.workerTake,
   TTSAction.workerDone, TTSAction.workerTake]

/-- Invariant of the TextToSpeech state: at most one live worker, the
speaking flag tracks an utterance being rendered, a rendering utterance
needs a live worker, nothing is ever queued or rendered without an
engine, and what was completed, is being rendered or still waits forms an
order-preserving selection of the accepted enqueues. -/
def TTSInv (s : TTSState) : Prop :=
  s.workerCount ≤ 1 ∧
  s.speaking = s.current.isSome ∧
  (s.current.isSome = true → 1 ≤ s.workerCount) ∧
  (s.engineOk = false → s.queue = [] ∧ s.current = none ∧ s.speaking = false) ∧
  List.Sublist (s.rendered ++ s.current.toList ++ s.queue) s.enqueued

/-- Exact FIFO bookkeeping: every accepted enqueue is accounted for, in
order, by the renders so far, the current utterance and the queue. -/
def fifoExact (s : TTSState) : Prop :=
  s.enqueued = s.rendered ++ s.current.toList ++ s.queue

theorem sublist_snoc_sublist {a b : List String} (x : String) (h : List.Sublist a b) :
    List.Sublist (a ++ [x]) (b ++ [x]) :=
  List.Sublist.append h (List.Sublist.refl [x])

theorem ttsInv_init (e : Bool) : TTSInv (ttsInit e) := by
  simp [TTSInv, ttsInit]

theorem ttsInv_speak (s : TTSState) (t : String) (h : TTSInv s) : TTSInv (tts_speak s t) := by
  obtain ⟨h1, h2, h3, h4, h5⟩ := h
  simp only [tts_speak]
  split_ifs with g1 g2 g3
  · exact ⟨h1, h2, h3, h4, h5⟩
  · exact ⟨h1, h2, h3, h4, h5⟩
  · have he : s.engineOk = true := by
      cases hek : s.engineOk with
      | false => exact absurd (Or.inr (Or.inl hek)) g1
      | true => rfl
    have g3s : s.workerCount = 0 := by simpa using g3
    refine ⟨by simp [g3s], by simp [h2], by intro _; simp, by simp [he], ?_⟩
    simp only []
    have : s.rendered ++ s.current.toList ++ (s.queue ++ [pyStrip t]) =
        (s.rendered ++ s.current.toList ++ s.queue) ++ [pyStrip t] := by
      simp [List.append_assoc]
    rw [this]
    exact sublist_snoc_sublist _ h5
  · have he : s.engineOk = true := by
      cases hek : s.engineOk with
      | false => exact absurd (Or.inr (Or.inl hek)) g1
      | true => rfl
    refine ⟨h1, h2, fun hc => h3 hc, by simp [he], ?_⟩
    simp only []
    have : s.rendered ++ s.current.toList ++ (s.queue ++ [pyStrip t]) =
        (s.rendered ++ s.current.toList ++ s.queue) ++ [pyStrip t] := by
      simp [List.append_assoc]
    rw [this]
    exact sublist_snoc_sublist _ h5

theorem ttsInv_take (s : TTSState) (h : TTSInv s) : TTSInv (tts_worker_take s) := by
  obtain ⟨h1, h2, h3, h4, h5⟩ := h
  unfold tts_worker_take
  cases hq : s.queue with
  | nil => exact ⟨h1, h2, h3, h4, h5⟩
  | cons t rest =>
    split_ifs with g1 g2
    · exact ⟨h1, h2, h3, h4, h5⟩
    · have hwc : ¬ s.workerCount = 0 := fun hc => g1 (Or.inl hc)
      have hcur : s.current = none := by
        rcases Option.eq_none_or_eq_some s.current with hn | ⟨v, hv⟩
        · exact hn
        · exact absurd (Or.inr (by simp [hv])) g1
      refine ⟨h1, by simp, by intro _; simp; omega, by simp [g2], ?_⟩
      rw [hq, hcur] at h5
      simpa using h5
    · exfalso
      have hf : s.engineOk = false := by
        cases hek : s.engineOk with
        | false => rfl
        | true => exact absurd hek g2
      have := (h4 hf).1
      rw [hq] at this
      simp at this

theorem ttsInv_done (s : TTSState) (h : TTSInv s) : TTSInv (tts_worker_done s) := by
  obtain ⟨h1, h2, h3, h4, h5⟩ := h
  unfold tts_worker_done
  cases hc : s.current with
  | none => exact ⟨h1, h2, h3, h4, h5⟩
  | some t =>
    refine ⟨h1, by simp, by simp, ?_, ?_⟩
    · intro hf
      exact absurd ((h4 hf).2.1) (by simp [hc])
    · rw [hc] at h5
      simpa [List.append_assoc] using h5

theorem ttsInv_exit (s : TTSState) (h : TTSInv s) : TTSInv (tts_worker_exit s) := by
  obtain ⟨h1, h2, h3, h4, h5⟩ := h
  unfold tts_worker_exit
  split_ifs with g1 g2
  · exact ⟨h1, h2, h3, h4, h5⟩
  · refine ⟨by simp; omega, h2, ?_, ?_, h5⟩
    · intro hc
      exact absurd hc (by simp [g2.2])
    · intro hf
      exact ⟨(h4 hf).1, (h4 hf).2.1, (h4 hf).2.2⟩
  · exact ⟨h1, h2, h3, h4, h5⟩

theorem ttsInv_stop (s : TTSState) (h : TTSInv s) : TTSInv (tts_stop s) := by
  obtain ⟨h1, h2, h3, h4, h5⟩ := h
  unfold tts_stop
  split_ifs with g1
  · refine ⟨h1, by simp, by simp, by simp [g1], ?_⟩
    have ha : List.Sublist s.rendered (s.rendered ++ s.current.toList ++ s.queue) := by
      have hb := List.sublist_append_left s.rendered (s.current.toList ++ s.queue)
      rw [List.append_assoc]
      exact hb
    simpa using ha.trans h5
  · exact ⟨h1, h2, h3, h4, h5⟩

theorem ttsInv_set_enabled (s : TTSState) (b : Bool) (h : TTSInv s) :
    TTSInv (tts_set_enabled s b) := by
  obtain ⟨h1, h2, h3, h4, h5⟩ := h
  unfold tts_set_enabled
  cases b with
  | true => exact ⟨h1, h2, h3, h4, h5⟩
  | false => exact ttsInv_stop _ ⟨h1, h2, h3, h4, h5⟩

theorem ttsInv_step (s : TTSState) (a : TTSAction) (h : TTSInv s) : TTSInv (ttsStep s a) := by
  cases a with
  | speak t => exact ttsInv_speak s t h
  | workerTake => exact ttsInv_take s h
  | workerDone => exact ttsInv_done s h
  | workerExit => exact ttsInv_exit s h
  | stop => exact ttsInv_stop s h
  | setEnabled b => exact ttsInv_set_enabled s b h

theorem ttsInv_foldl (acts : List TTSAction) :
    ∀ s : TTSState, TTSInv s → TTSInv (acts.foldl ttsStep s) := by
  induction acts with
  | nil => intro s h; exact h
  | cons a acts ih => intro s h; exact ih _ (ttsInv_step s a h)

theorem ttsInv_run (e : Bool) (acts : List TTSAction) : TTSInv (runTTS e acts) :=
  ttsInv_foldl acts _ (ttsInv_init e)

theorem fifo_speak (s : TTSState) (t : String) (h : fifoExact s) :
    fifoExact (tts_speak s t) := by
  unfold fifoExact at h ⊢
  simp only [tts_speak]
  split_ifs with g1 g2 g3
  · exact h
  · exact h
  · simp [h, List.append_assoc]
  · simp [h, List.append_assoc]

theorem fifo_take (s : TTSState) (hInv : TTSInv s) (h : fifoExact s) :
    fifoExact (tts_worker_take s) := by
  obtain ⟨h1, h2, h3, h4, h5⟩ := hInv
  unfold fifoExact at h ⊢
  unfold tts_worker_take
  cases hq : s.queue with
  | nil => exact h
  | cons t rest =>
    split_ifs with g1 g2
    · exact h
    · have hcur : s.current = none := by
        rcases Option.eq_none_or_eq_some s.current with hn | ⟨v, hv⟩
        · exact hn
        · exact absurd (Or.inr (by simp [hv])) g1
      rw [hq, hcur] at h
      simpa using h
    · exfalso
      have hf : s.engineOk = false := by
        cases hek : s.engineOk with
        | false => rfl
        | true => exact absurd hek g2
      have := (h4 hf).1
      rw [hq] at this
      simp at this

theorem fifo_done (s : TTSState) (h : fifoExact s) :
    fifoExact (tts_worker_done s) := by
  unfold fifoExact at h ⊢
  unfold tts_worker_done
  cases hc : s.current with
  | none => exact h
  | some t =>
    rw [hc] at h
    simpa [List.append_assoc] using h

theorem fifo_exit (s : TTSState) (h : fifoExact s) :
    fifoExact (tts_worker_exit s) := by
  unfold fifoExact at h ⊢
  unfold tts_worker_exit
  split_ifs with g1 g2
  · exact h
  · exact h
  · exact h

theorem fifo_step (s : TTSState) (a : TTSAction) (hnd : noDiscard a = true)
    (hInv : TTSInv s) (h : fifoExact s) : fifoExact (ttsStep s a) := by
  cases a with
  | speak t => exact fifo_speak s t h
  | workerTake => exact fifo_take s hInv h
  | workerDone => exact fifo_done s h
  | workerExit => exact fifo_exit s h
  | stop => exact absurd hnd (by simp [noDiscard])
  | setEnabled b =>
      cases b with
      | false => exact absurd hnd (by simp [noDiscard])
      | true => exact h

theorem fifo_foldl (acts : List TTSAction) :
    ∀ s : TTSState, (∀ a ∈ acts, noDiscard a = true) → TTSInv s → fifoExact s →
      fifoExact (acts.foldl ttsStep s) := by
  induction acts with
  | nil => intro s _ _ hf; exact hf
  | cons a acts ih =>
      intro s hnd hi hf
      exact ih _ (fun b hb => hnd b (List.mem_cons_of_mem a hb)) (ttsInv_step s a hi)
        (fifo_step s a (hnd a (List.mem_cons_self a acts)) hi hf)

theorem fifoExact_run (e : Bool) (acts : List TTSAction)
    (hnd : ∀ a ∈ acts, noDiscard a = true) : fifoExact (runTTS e acts) :=
  fifo_foldl acts _ hnd (ttsInv_init e) rfl

theorem listenGuarded_continuousListen (outs : List ListenOutcome) :
    ∀ seen : Bool, listenGuarded seen (continuousListen outs) = true := by
  induction outs with
  | nil => intro seen; rfl
  | cons o rest ih =>
      intro seen
      cases o with
      | deactivated => simp [continuousListen, listenGuarded]
      | heard t =>
          by_cases hb : t = "" ∨ pyStrip t = ""
          · simp [continuousListen, listenGuarded, hb, ih false]
          · simp [continuousListen, listenGuarded, hb, ih false]
      | noSpeech => simp [continuousListen, listenGuarded, ih false]
      | serviceError m => simp [continuousListen, listenGuarded, ih false]
      | cycleError => simp [continuousListen, listenGuarded, ih false]

theorem ttsInv_ols (s : TTSState) (h : TTSInv s) : TTSInv (on_listening_started s) := by
  unfold on_listening_started
  split_ifs with g
  · exact ttsInv_stop s h
  · exact h

theorem ols_not_speaking (s : TTSState) (h : TTSInv s) :
    tts_is_speaking (on_listening_started s) = false := by
  obtain ⟨h1, h2, h3, h4, h5⟩ := h
  unfold on_listening_started tts_stop tts_is_speaking
  by_cases hs : s.speaking = true
  · rw [if_pos hs]
    have he : s.engineOk = true := by
      cases hek : s.engineOk with
      | false => exact absurd (h4 hek).2.2 (by simp [hs])
      | true => rfl
    rw [if_pos he]
  · rw [if_neg hs]
    simpa using hs

theorem ttsInv_controllerStep (s : TTSState) (ev : CaptureEvent) (h : TTSInv s) :
    TTSInv (controllerStep s ev) := by
  cases ev with
  | listeningStarted => exact ttsInv_ols s h
  | listenCall => exact h
  | transcript t => exact h
  | errorEvent m => exact h

theorem transcriptsQuiet_of_inv (outs : List ListenOutcome) :
    ∀ s : TTSState, TTSInv s → transcriptsQuiet s (continuousListen outs) = true := by
  induction outs with
  | nil => intro s _; rfl
  | cons o rest ih =>
      intro s h
      have h1 : TTSInv (on_listening_started s) := ttsInv_ols s h
      have hq : tts_is_speaking (on_listening_started s) = false := ols_not_speaking s h
      cases o with
      | deactivated => simp [continuousListen, transcriptsQuiet, controllerStep]
      | heard t =>
          by_cases hb : t = "" ∨ pyStrip t = ""
          · simp [continuousListen, transcriptsQuiet, controllerStep, hb, ih _ h1]
          · simp [continuousListen, transcriptsQuiet, controllerStep, hb, hq, ih _ h1]
      | noSpeech => simp [continuousListen, transcriptsQuiet, controllerStep, ih _ h1]
      | serviceError m => simp [continuousListen, transcriptsQuiet, controllerStep, ih _ h1]
      | cycleError => simp [continuousListen, transcriptsQuiet, controllerStep, ih _ h1]

theorem dropWhile_space_replicate (n : Nat) :
    (List.replicate n ' ').dropWhile pySpace = [] := by
  induction n with
  | zero => rfl
  | succ n ih => simp [List.replicate_succ, List.dropWhile_cons, pySpace, ih]

theorem pyStrip_longSpaces : pyStrip longSpaces = "" := by
  show String.mk ((((List.replicate 5001 ' ').dropWhile pySpace).reverse.dropWhile
    pySpace).reverse) = ""
  rw [dropWhile_space_replicate]
  rfl

theorem longSpaces_length : longSpaces.length = 5001 := by
  show (List.replicate 5001 ' ').length = 5001
  exact List.length_replicate 5001 ' '

theorem dropWhile_letter_replicate (n : Nat) :
    (List.replicate (n + 1) 'a').dropWhile pySpace = List.replicate (n + 1) 'a' := by
  rw [List.replicate_succ, List.dropWhile_cons]
  simp [pySpace]

theorem pyStrip_longLetters : pyStrip longLetters = longLetters := by
  show String.mk ((((List.replicate 5001 'a').dropWhile pySpace).reverse.dropWhile
    pySpace).reverse) = longLetters
  have h1 : (5001 : Nat) = 5000 + 1 := rfl
  rw [h1, dropWhile_letter_replicate, List.reverse_replicate, dropWhile_letter_replicate,
    List.reverse_replicate]
  rfl

theorem pyStrip_longLetters_ne : pyStrip longLetters ≠ "" := by
  rw [pyStrip_longLetters]
  intro h
  have h2 : (List.replicate 5001 'a') = ([] : List Char) := congrArg String.data h
  have h3 : (List.replicate 5001 'a').length = ([] : List Char).length :=
    congrArg List.length h2
  rw [List.length_replicate] at h3
  simp at h3

theorem longLetters_length : longLetters.length = 5001 := by
  show (List.replicate 5001 'a').length = 5001
  exact List.length_replicate 5001 'a'

/-- Claim C1: for every sequence of enqueue (speak) calls to the speech
queue, interleaved arbitrarily with worker steps and control calls, at
most one worker thread is ever live (a new one is spawned only when none
is alive), the speaking flag is set exactly while an utterance is being
rendered (so at most one utterance is spoken at any instant), the
completed renders followed by the in-progress utterance and the pending
queue always form an order-preserving selection of the accepted enqueues,
and when no discarding call (stop or disable) occurs this selection is
exact, i.e. utterances are rendered in FIFO enqueue order. -/
theorem speech_queue_fifo_single_worker (e : Bool) (acts : List TTSAction) :
    (runTTS e acts).workerCount ≤ 1 ∧
    tts_is_speaking (runTTS e acts) = (runTTS e acts).current.isSome ∧
    List.Sublist
      ((runTTS e acts).rendered ++ (runTTS e acts).current.toList ++ (runTTS e acts).queue)
      (runTTS e acts).enqueued ∧
    ((∀ a ∈ acts, noDiscard a = true) →
      (runTTS e acts).enqueued =
        (runTTS e acts).rendered ++ (runTTS e acts).current.toList ++ (runTTS e acts).queue) := by
  obtain ⟨h1, h2, h3, h4, h5⟩ := ttsInv_run e acts
  exact ⟨h1, h2, h5, fun hnd => fifoExact_run e acts hnd⟩

theorem speech_queue_fifo_single_worker_witness :
    (runTTS true c1acts).workerCount ≤ 1 ∧
    tts_is_speaking (runTTS true c1acts) = (runTTS true c1acts).current.isSome ∧
    List.Sublist
      ((runTTS true c1acts).rendered ++ (runTTS true c1acts).current.toList ++
        (runTTS true c1acts).queue)
      (runTTS true c1acts).enqueued ∧
    (runTTS true c1acts).enqueued =
      (runTTS true c1acts).rendered ++ (runTTS true c1acts).current.toList ++
        (runTTS true c1acts).queue := by
  have h := speech_queue_fifo_single_worker true c1acts
  exact ⟨h.1, h.2.1, h.2.2.1, h.2.2.2 (by decide)⟩

/-- Claim C2: whenever the capture loop emits listening_started while the
speech queue reports speaking, the coordinator handler invokes stop,
leaving the queue empty and silent; every capture cycle begins with the
listening_started signal, so the rule applies on every cycle; and along
any capture trace processed by the coordinator every transcript arrives
with the speech queue no longer speaking. -/
theorem barge_in_interrupts_speech (e : Bool) (acts : List TTSAction) :
    (tts_is_speaking (runTTS e acts) = true →
      on_listening_started (runTTS e acts) = tts_stop (runTTS e acts) ∧
      tts_is_speaking (on_listening_started (runTTS e acts)) = false ∧
      (on_listening_started (runTTS e acts)).queue = []) ∧
    (∀ (o : ListenOutcome) (rest : List ListenOutcome), ∃ tail,
      continuousListen (o :: rest) = CaptureEvent.listeningStarted :: tail) ∧
    (∀ outs : List ListenOutcome,
      transcriptsQuiet (runTTS e acts) (continuousListen outs) = true) := by
  have hInv := ttsInv_run e acts
  refine ⟨?_, ?_, ?_⟩
  · intro hs
    obtain ⟨h1, h2, h3, h4, h5⟩ := hInv
    have heq : on_listening_started (runTTS e acts) = tts_stop (runTTS e acts) := by
      unfold on_listening_started
      rw [if_pos hs]
    have he : (runTTS e acts).engineOk = true := by
      cases hek : (runTTS e acts).engineOk with
      | false => exact absurd (h4 hek).2.2 (by simp [tts_is_speaking] at hs; simp [hs])
      | true => rfl
    refine ⟨heq, ?_, ?_⟩
    · rw [heq]
      unfold tts_stop tts_is_speaking
      rw [if_pos he]
    · rw [heq]
      unfold tts_stop
      rw [if_pos he]
  · intro o rest
    cases o with
    | deactivated => exact ⟨_, rfl⟩
    | heard t => exact ⟨_, rfl⟩
    | noSpeech => exact ⟨_, rfl⟩
    | serviceError m => exact ⟨_, rfl⟩
    | cycleError => exact ⟨_, rfl⟩
  · intro outs
    exact transcriptsQuiet_of_inv outs _ hInv

theorem barge_in_interrupts_speech_witness :
    on_listening_started (runTTS true [TTSAction.speak "hi", TTSAction.workerTake]) =
      tts_stop (runTTS true [TTSAction.speak "hi", TTSAction.workerTake]) ∧
    tts_is_speaking
      (on_listening_started (runTTS true [TTSAction.speak "hi", TTSAction.workerTake])) = false ∧
    (on_listening_started (runTTS true [TTSAction.speak "hi", TTSAction.workerTake])).queue
      = [] :=
  (barge_in_interrupts_speech true [TTSAction.speak "hi", TTSAction.workerTake]).1 (by decide)

/-- Claim C4: after stop() on any reachable speech-queue state, the queue
of pending utterances is empty, the current utterance has been cancelled
and is_speaking reports false, however many items were queued and whether
or not an utterance was being rendered. -/
theorem stop_empties_and_silences (e : Bool) (acts : List TTSAction) :
    (tts_stop (runTTS e acts)).queue = [] ∧
    (tts_stop (runTTS e acts)).current = none ∧
    tts_is_speaking (tts_stop (runTTS e acts)) = false := by
  obtain ⟨h1, h2, h3, h4, h5⟩ := ttsInv_run e acts
  unfold tts_stop tts_is_speaking
  by_cases hg : (runTTS e acts).engineOk = true
  · rw [if_pos hg]
    exact ⟨rfl, rfl, rfl⟩
  · rw [if_neg hg]
    have h4e := h4 (by simpa using hg)
    exact ⟨h4e.1, h4e.2.1, h4e.2.2⟩

/-- Claim C5: in every capture cycle, the listening_started signal is
emitted before the blocking recognizer.listen call of that cycle: the
scan that demands a fresh listening_started before each listenCall
accepts every trace of the loop. -/
theorem listening_signal_before_capture (outs : List ListenOutcome) :
    listenGuarded false (continuousListen outs) = true :=
  listenGuarded_continuousListen outs false

/-- Claim C6: a NoSpeechDetected cycle (sr.UnknownValueError) contributes
exactly the listening_started signal and the blocking listen call to the
trace, no transcript and no error event, and the loop goes on to process
the remaining cycles unchanged. -/
theorem no_speech_continues_silently (pre rest : List ListenOutcome)
    (h : ∀ o ∈ pre, o ≠ ListenOutcome.deactivated) :
    continuousListen (pre ++ ListenOutcome.noSpeech :: rest) =
      continuousListen pre ++
        CaptureEvent.listeningStarted :: CaptureEvent.listenCall :: continuousListen rest := by
  induction pre with
  | nil => rfl
  | cons o pre ih =>
      have ho : o ≠ ListenOutcome.deactivated := h o (List.mem_cons_self o pre)
      have h2 : ∀ a ∈ pre, a ≠ ListenOutcome.deactivated :=
        fun a ha => h a (List.mem_cons_of_mem o ha)
      cases o with
      | deactivated => exact absurd rfl ho
      | heard t => simp [continuousListen, ih h2, List.append_assoc]
      | noSpeech => simp [continuousListen, ih h2]
      | serviceError m => simp [continuousListen, ih h2]
      | cycleError => simp [continuousListen, ih h2]

theorem no_speech_continues_silently_witness :
    continuousListen ([ListenOutcome.heard "ok"] ++ ListenOutcome.noSpeech ::
        [ListenOutcome.heard "again"]) =
      continuousListen [ListenOutcome.heard "ok"] ++
        CaptureEvent.listeningStarted :: CaptureEvent.listenCall ::
          continuousListen [ListenOutcome.heard "again"] :=
  no_speech_continues_silently [ListenOutcome.heard "ok"] [ListenOutcome.heard "again"]
    (by decide)

/-- Claim C8: disabling speech output stops the current utterance and
empties the queue at once, and while disabled every further speak call is
a no-op, both a single call and any sequence of calls, until re-enabled. -/
theorem disable_stops_and_blocks_enqueue (e : Bool) (acts : List TTSAction) :
    (tts_set_enabled (runTTS e acts) false).queue = [] ∧
    (tts_set_enabled (runTTS e acts) false).current = none ∧
    tts_is_speaking (tts_set_enabled (runTTS e acts) false) = false ∧
    (tts_set_enabled (runTTS e acts) false).enabled = false ∧
    (∀ t, tts_speak (tts_set_enabled (runTTS e acts) false) t =
      tts_set_enabled (runTTS e acts) false) ∧
    (∀ ts : List String, ts.foldl tts_speak (tts_set_enabled (runTTS e acts) false) =
      tts_set_enabled (runTTS e acts) false) := by
  obtain ⟨h1, h2, h3, h4, h5⟩ := ttsInv_run e acts
  have hd : tts_set_enabled (runTTS e acts) false =
      tts_stop { runTTS e acts with enabled := false } := rfl
  have hmain : (tts_set_enabled (runTTS e acts) false).queue = [] ∧
      (tts_set_enabled (runTTS e acts) false).current = none ∧
      tts_is_speaking (tts_set_enabled (runTTS e acts) false) = false ∧
      (tts_set_enabled (runTTS e acts) false).enabled = false := by
    rw [hd]
    unfold tts_stop tts_is_speaking
    by_cases hg : (runTTS e acts).engineOk = true
    · rw [if_pos (by simpa using hg)]
      exact ⟨rfl, rfl, rfl, rfl⟩
    · rw [if_neg (by simpa using hg)]
      have h4e := h4 (by simpa using hg)
      exact ⟨h4e.1, h4e.2.1, h4e.2.2, rfl⟩
  have hspeak : ∀ t, tts_speak (tts_set_enabled (runTTS e acts) false) t =
      tts_set_enabled (runTTS e acts) false := by
    intro t
    unfold tts_speak
    rw [if_pos (Or.inl hmain.2.2.2)]
  refine ⟨hmain.1, hmain.2.1, hmain.2.2.1, hmain.2.2.2, hspeak, ?_⟩
  intro ts
  induction ts with
  | nil => rfl
  | cons t ts ih => rw [List.foldl_cons, hspeak t, ih]

/-- Claim C3 counterexample: dispatching a second message while the first
APIWorker is still running leaves two calls outstanding at once, and when
both workers complete, both replies are delivered to the coordinator
handler — the prior result is neither rejected nor discarded. -/
theorem second_dispatch_both_delivered :
    (send_to_api (send_to_api dispatchInit "first message") "second message").running.length
      = 2 ∧
    (worker_finished
        (worker_finished (send_to_api (send_to_api dispatchInit "first message")
          "second message") 1 "second reply")
        0 "first reply").delivered
      = [(1, "second reply"), (0, "first reply")] := by
  decide

/-- Claim C3 amended: _send_to_api never rejects a second dispatch and
never cancels or disconnects the pending worker; it only replaces the
current_worker reference.  Both workers stay running, and when the prior
worker completes its reply is still delivered to the coordinator. -/
theorem second_dispatch_keeps_prior_call (s : DispatchState) (m1 m2 reply : String) :
    (send_to_api (send_to_api s m1) m2).running
      = s.running ++ [(s.nextId, m1), (s.nextId + 1, m2)] ∧
    (send_to_api (send_to_api s m1) m2).currentWorker = some (s.nextId + 1) ∧
    (worker_finished (send_to_api (send_to_api s m1) m2) s.nextId reply).delivered
      = (send_to_api (send_to_api s m1) m2).delivered ++ [(s.nextId, reply)] := by
  refine ⟨by simp [send_to_api], by simp [send_to_api], ?_⟩
  unfold worker_finished
  rw [if_pos (by simp [send_to_api])]
  simp [send_to_api]

/-- Claim C7: every way a backend call can fail is returned as a
classified APIResponse value (make_request is a total function, it never
raises): 401 and 403 responses classify as authentication_error, a
connect failure as connection_error, a timed-out call as timeout, a
non-raising response whose body is not valid JSON as invalid_response,
and every other failure — other 4xx/5xx codes, other request exceptions
and unexpected exceptions — as the generic error status. -/
theorem request_failures_classified :
    (∀ (v : Bool) (b : List (String × String)),
      (make_request (RequestOutcome.httpResponse 401 v b)).status
        = APIStatus.authentication_error) ∧
    (∀ (v : Bool) (b : List (String × String)),
      (make_request (RequestOutcome.httpResponse 403 v b)).status
        = APIStatus.authentication_error) ∧
    (make_request RequestOutcome.timedOut).status = APIStatus.timeout ∧
    (make_request RequestOutcome.connectionFailed).status = APIStatus.connection_error ∧
    (∀ (c : Nat) (b : List (String × String)), 200 ≤ c → c < 300 →
      (make_request (RequestOutcome.httpResponse c false b)).status
        = APIStatus.invalid_response) ∧
    (∀ m, (make_request (RequestOutcome.requestFailed m)).status = APIStatus.error) ∧
    (∀ m, (make_request (RequestOutcome.unexpected m)).status = APIStatus.error) ∧
    (∀ (c : Nat) (v : Bool) (b : List (String × String)),
      400 ≤ c → c < 600 → c ≠ 401 → c ≠ 403 →
      (make_request (RequestOutcome.httpResponse c v b)).status = APIStatus.error) := by
  refine ⟨?_, ?_, rfl, rfl, ?_, fun m => rfl, fun m => rfl, ?_⟩
  · intro v b
    simp [make_request]
  · intro v b
    simp [make_request]
  · intro c b hc1 hc2
    simp only [make_request]
    rw [if_neg (by omega)]
    simp
  · intro c v b hc1 hc2 hc3 hc4
    simp only [make_request]
    rw [if_pos ⟨hc1, hc2⟩]
    rw [if_neg (by rintro (rfl | rfl) <;> simp_all)]

theorem request_failures_classified_witness :
    (make_request (RequestOutcome.httpResponse 200 false [])).status
      = APIStatus.invalid_response ∧
    (make_request (RequestOutcome.httpResponse 500 true [])).status = APIStatus.error :=
  ⟨request_failures_classified.2.2.2.2.1 200 [] (by decide) (by decide),
   request_failures_classified.2.2.2.2.2.2.2 500 true [] (by decide) (by decide)
     (by decide) (by decide)⟩

/-- Claim C9 counterexample: a message of 5001 blanks is longer than
Config.MAX_MESSAGE_LENGTH, yet handle_message_sent returns with the chat
window unchanged — no error is shown — because the blank-message check
runs before the length check. -/
theorem overlong_whitespace_message_no_error :
    MAX_MESSAGE_LENGTH < longSpaces.length ∧
    handle_message_sent chatInit0 longSpaces = chatInit0 ∧
    (handle_message_sent chatInit0 longSpaces).errorsShown = [] := by
  have hs : handle_message_sent chatInit0 longSpaces = chatInit0 := by
    unfold handle_message_sent
    rw [if_pos (Or.inr pyStrip_longSpaces)]
  refine ⟨?_, hs, by rw [hs]; rfl⟩
  rw [longSpaces_length]
  decide

/-- Claim C9 amended: empty and whitespace-only submissions are silently
ignored — no error, no log entry, no dispatch — even when longer than
5000 characters, because the blank check precedes the length check; every
non-blank message longer than Config.MAX_MESSAGE_LENGTH makes the chat
controller show the too-long error and return without adding the message
to the log and without dispatching a backend call. -/
theorem chat_message_validation (ui : ChatUI) (msg : String) :
    (pyStrip msg = "" → handle_message_sent ui msg = ui) ∧
    (pyStrip msg ≠ "" → MAX_MESSAGE_LENGTH < msg.length →
      (handle_message_sent ui msg).userMessages = ui.userMessages ∧
      (handle_message_sent ui msg).dispatched = ui.dispatched ∧
      (handle_message_sent ui msg).errorsShown = ui.errorsShown ++
        ["Message too long. Maximum " ++ toString MAX_MESSAGE_LENGTH ++ " characters."]) := by
  constructor
  · intro h
    unfold handle_message_sent
    rw [if_pos (Or.inr h)]
  · intro h1 h2
    have hm : ¬(msg = "" ∨ pyStrip msg = "") := by
      rintro (rfl | h)
      · exact h1 rfl
      · exact h1 h
    unfold handle_message_sent
    rw [if_neg hm, if_pos h2]
    exact ⟨rfl, rfl, rfl⟩

theorem chat_message_validation_witness :
    handle_message_sent chatInit0 "   " = chatInit0 ∧
    ((handle_message_sent chatInit0 longLetters).userMessages = chatInit0.userMessages ∧
     (handle_message_sent chatInit0 longLetters).dispatched = chatInit0.dispatched ∧
     (handle_message_sent chatInit0 longLetters).errorsShown = chatInit0.errorsShown ++
       ["Message too long. Maximum " ++ toString MAX_MESSAGE_LENGTH ++ " characters."]) :=
  ⟨(chat_message_validation chatInit0 "   ").1 (by decide),
   (chat_message_validation chatInit0 longLetters).2 pyStrip_longLetters_ne
     (by rw [longLetters_length]; decide)⟩

/-- Claim C10: on a successful backend reply the coordinator takes the
response field when present, else the reply field, else the literal
string No response (which is non-empty), and appends exactly that text to
the assistant side of the chat log and speaks it. -/
theorem reply_field_precedence :
    (∀ (d : List (String × String)) (v : String),
      List.lookup "response" d = some v → extract_ai_reply d = v) ∧
    (∀ (d : List (String × String)) (v : String),
      List.lookup "response" d = none → List.lookup "reply" d = some v →
        extract_ai_reply d = v) ∧
    (∀ d : List (String × String),
      List.lookup "response" d = none → List.lookup "reply" d = none →
        extract_ai_reply d = "No response" ∧ "No response" ≠ "") ∧
    (∀ (s : VAState) (resp : APIResponse), resp.status = APIStatus.success →
      (handle_api_response s resp).agentMessages
        = s.agentMessages ++ [extract_ai_reply resp.data] ∧
      (handle_api_response s resp).tts = tts_speak s.tts (extract_ai_reply resp.data)) := by
  refine ⟨?_, ?_, ?_, ?_⟩
  · intro d v h
    simp [extract_ai_reply, h]
  · intro d v h1 h2
    simp [extract_ai_reply, h1, h2]
  · intro d h1 h2
    exact ⟨by simp [extract_ai_reply, h1, h2], by decide⟩
  · intro s resp h
    constructor <;> simp [handle_api_response, h]

theorem reply_field_precedence_witness :
    extract_ai_reply [("reply", "fallback text"), ("response", "primary text")]
      = "primary text" ∧
    (extract_ai_reply [("conversation_id", "dummy-123")] = "No response" ∧
      "No response" ≠ "") :=
  ⟨reply_field_precedence.1 [("reply", "fallback text"), ("response", "primary text")]
      "primary text" (by decide),
   (reply_field_precedence.2.2.1 [("conversation_id", "dummy-123")] (by decide) (by decide))⟩
